import Mathlib

/-!
Verification of `pokemon_WGAN` (`src/generator/core.py`) against its
design specification.

The development is a shallow embedding of `generator/core.py`:
* scalars of the numeric framework are modelled as rationals (`Scalar`),
* the framework's global random-number generator is modelled as an explicit
  state (`RngState`) threaded through every operation that consumes it; the
  actual values it produces are kept abstract by parameterising over an
  uninterpreted standard-normal sample stream,
* fallible operations return `Except`,
* the training loop is a pure function over an explicit `TrainState`, and
  additionally emits a trace of observable effects (`Event`), recording the
  order of update steps, scheduler steps and file writes.

Code of the repository that is not under `src/` (the `models`, `_utils`,
`datasets` modules and the torch library calls) is spec-modelled; each such
definition carries a doc comment saying so.
-/

namespace WGAN

/-- Framework scalars (floats in the code) are modelled as rationals. -/
abbrev Scalar := ℚ

/-- State of the framework's global random-number generator (`torch`'s
default generator).  Modelled as a counter: every sampling call advances it
by one, and `manual_seed` resets it to a value determined by the seed. -/
abbrev RngState := Nat

/-- Modelled from the spec: `torch.manual_seed` (library code, not in
`src/`) resets the global RNG to a state that is a deterministic function of
the seed alone, so that subsequent sampling is deterministic. -/
def manual_seed (seed : Nat) : RngState := seed

/-- A rank-2 tensor of shape `(rows, cols)`; `val i j` is entry `(i, j)`. -/
structure Mat where
  rows : Nat
  cols : Nat
  val : Nat → Nat → Scalar

/-- Modelled from the spec: `torch.randn rows cols` (library code, not in
`src/`) draws a `(rows, cols)` tensor of standard-normal samples from the
global RNG and advances its state.  The sample values are abstracted by the
uninterpreted stream `stream`: `stream st i j` is entry `(i, j)` of the
sample drawn at RNG state `st`.  The sample is a deterministic function of
the RNG state, as in the framework. -/
def randn (stream : Nat → Nat → Nat → Scalar) (rows cols : Nat) (st : RngState) :
    Mat × RngState :=
  (⟨rows, cols, fun i j => stream st i j⟩, st + 1)

/-- A single image in channel-first layout `(3, h, w)`:
`val c i j` is the value of channel `c` at row `i`, column `j`. -/
structure Image3 where
  h : Nat
  w : Nat
  val : Nat → Nat → Nat → Scalar

/-- A single image in channel-last layout `(h, w, 3)`:
`val i j c` is the value at row `i`, column `j`, channel `c`. -/
structure ImageHW3 where
  h : Nat
  w : Nat
  val : Nat → Nat → Nat → Scalar

/-- Modelled from the spec: `_utils.denormalize` (not in `src/`) restores a
generator output from the normalized range `[-1, 1]` to the displayable
range `[0, 1]`, inverting `Normalize((0.5,0.5,0.5), (0.5,0.5,0.5))`:
`x ↦ x * 0.5 + 0.5`. -/
def denormalize (img : Image3) : Image3 :=
  ⟨img.h, img.w, fun c i j => img.val c i j / 2 + 1 / 2⟩

/-- `np.transpose (·, (1, 2, 0))`: move the channel axis last. -/
def transpose120 (img : Image3) : ImageHW3 :=
  ⟨img.h, img.w, fun i j c => img.val c i j⟩

/-- A network's serialized parameter state (`state_dict`), a flat list of
parameter values. -/
abbrev StateDict := List Scalar

/-- `train()` / `eval()` mode of a torch module. -/
inductive NetMode where
  | train
  | eval
deriving DecidableEq

namespace models

/-- The generator network of `generator/models.py` (not in `src/`): its
parameter state together with its mode.  Its forward computation is kept
abstract (`GArch` below). -/
structure Generator where
  params : StateDict
  mode : NetMode

end models

/-- The forward computation of the generator network (`models.py`, not in
`src/`): from its parameter state and one latent vector to one
channel-first image.  Kept fully abstract. -/
abbrev GArch := StateDict → (Nat → Scalar) → Image3

/-- The checkpoint filesystem: a map from file path to the `StateDict`
stored there.  Modelled from the spec: `torch.save` / `torch.load` (library
code, not in `src/`) serialize and deserialize a `state_dict` exactly, so a
checkpoint file is modelled as holding the `StateDict` itself. -/
abbrev FS := String → Option StateDict

/-- The fixed directory `config.path.models` that checkpoint paths are
formed under. -/
def modelsDir : String := "models/"

/-- The `Generator` service class of `generator/core.py`: a fixed model
path and an optional loaded network. -/
structure Generator where
  model_path : String
  model : Option models.Generator

/-- `Generator.__init__`: set `model_path` under the models directory and
set `model` to `None`. -/
def Generator.init (model_name : String) : Generator :=
  { model_path := modelsDir ++ model_name, model := none }

/-- `Generator.load_model`: build a fresh network, load the `state_dict`
found at `model_path` into it, and put it in eval mode.  Fails when the
file is absent. -/
def Generator.load_model (g : Generator) (fs : FS) : Except String Generator :=
  match fs g.model_path with
  | none => Except.error "FileNotFoundError"
  | some sd => Except.ok { g with model := some { params := sd, mode := NetMode.eval } }

/-- `Generator.save_model`: write the model's `state_dict` to `model_path`,
overwriting whatever was there.  A `None` model has no `state_dict`, so the
call fails. -/
def Generator.save_model (g : Generator) (fs : FS) : Except String FS :=
  match g.model with
  | none => Except.error "AttributeError: NoneType has no attribute state_dict"
  | some m => Except.ok (fun p => if p = g.model_path then some m.params else fs p)

/-- `Generator.generate`: if a seed is given, reseed the global RNG; if no
latent vector is given, sample one of shape `(1, latent_vector_size)` from
the standard normal distribution; run the model on it, squeeze the batch
dimension, denormalize, and return the image in channel-last layout.
`arch` is the abstract forward computation, `latent_size` is
`config.data.latent_vector_size`.  Returns the result (an error when the
model is `None`, since `None` is not callable) together with the RNG state
after the call. -/
def Generator.generate (arch : GArch) (stream : Nat → Nat → Nat → Scalar)
    (latent_size : Nat) (g : Generator) (st : RngState)
    (seed : Option Nat) (latent_vector : Option (Nat → Scalar)) :
    Except String ImageHW3 × RngState :=
  let st1 : RngState :=
    match seed with
    | some s => manual_seed s
    | none => st
  let lv : Mat × RngState :=
    match latent_vector with
    | some v => (⟨1, latent_size, fun _ j => v j⟩, st1)
    | none => randn stream 1 latent_size st1
  match g.model with
  | none => (Except.error "TypeError: NoneType is not callable", lv.2)
  | some m =>
      (Except.ok (transpose120 (denormalize (arch m.params (fun j => lv.1.val 0 j)))), lv.2)

/-! ## The training loop (`Generator.train`) -/

/-- The configuration constants (`generator/config.py`, not in `src/`) that
`Generator.train` reads; their values are left free. -/
structure TrainConfig where
  image_size : Nat
  latent_vector_size : Nat
  batch_size : Nat
  sample_num : Nat
  epochs : Nat
  d_loop_num : Nat
  g_loop_num : Nat
  d_learning_rate : Scalar
  g_learning_rate : Scalar
  d_milestones : List Nat
  d_lr_gamma : Scalar
  g_milestones : List Nat
  g_lr_gamma : Scalar

/-- Modelled from the spec: `torch.optim.lr_scheduler.MultiStepLR` (library
code, not in `src/`): piecewise-constant decay; it counts epochs in
`last_epoch`, and a `step` multiplies the learning rate by `gamma` once for
each occurrence of the new epoch index among the milestones, leaving it
unchanged otherwise. -/
structure MultiStepLR where
  milestones : List Nat
  gamma : Scalar
  last_epoch : Nat

/-- One scheduler step at the end of an epoch: advance the epoch counter
and return the new learning rate. -/
def MultiStepLR.step (s : MultiStepLR) (lr : Scalar) : MultiStepLR × Scalar :=
  (⟨s.milestones, s.gamma, s.last_epoch + 1⟩,
   lr * s.gamma ^ (s.milestones.count (s.last_epoch + 1)))

/-- The observable effects of the training loop, in program order:
discriminator / generator update steps, scheduler steps, and the per-epoch
file writes (loss plot, sample grid, checkpoint).  `saveSamples` records
the latent batch the generator was run on for the grid. -/
inductive Event (Batch : Type) where
  | dStep (real : Batch)
  | gStep
  | dSchedStep
  | gSchedStep
  | savePlot
  | saveSamples (file_name : String) (latent : Mat)
  | saveModel (path : String)

/-- Result of one `_utils.train_d_model` call: the updated discriminator
parameters and optimizer state, the RNG state after the fresh fake batch
was sampled, and the discriminator loss. -/
structure DStepRes (DInner Loss : Type) where
  d_params : StateDict
  d_inner : DInner
  rng : RngState
  loss : Loss

/-- Result of one `_utils.train_g_model` call. -/
structure GStepRes (GInner Loss : Type) where
  g_params : StateDict
  g_inner : GInner
  rng : RngState
  loss : Loss

/-- Modelled from the spec: `_utils.train_d_model` (not in `src/`): one
discriminator update from the real batch and a freshly-sampled fake batch,
with the generator held fixed (it reads the generator's parameters but
returns no update to them; no gradient flows into the generator).  The
arguments mirror the call `train_d_model(d_model, g_model, real_images,
d_optimizer)`: the optimizer is its learning rate plus its abstract inner
state `DInner`. -/
abbrev DStepFn (Batch DInner Loss : Type) :=
  StateDict → StateDict → Batch → Scalar → DInner → RngState → DStepRes DInner Loss

/-- Modelled from the spec: `_utils.train_g_model` (not in `src/`): one
generator update from freshly-sampled latent vectors scored by the
discriminator, with the discriminator held fixed (it reads the
discriminator's parameters but returns no update to them). -/
abbrev GStepFn (GInner Loss : Type) :=
  StateDict → StateDict → Scalar → GInner → RngState → GStepRes GInner Loss

/-- Accumulator for the inner per-batch update loops: current parameters,
optimizer inner state, RNG state, the loss of the most recent step
(`none` before any step, mirroring `d_loss = None`), and the events
emitted so far. -/
structure PhaseRes (Inner Loss Batch : Type) where
  params : StateDict
  inner : Inner
  rng : RngState
  loss : Option Loss
  events : List (Event Batch)

/-- The loop `for _ in range(d_loop_num): d_loss = train_d_model(...)`:
`k` remaining iterations, each updating the discriminator from the same
real batch at the same learning rate, overwriting the recorded loss. -/
def dPhase {Batch DInner Loss : Type} (train_d_model : DStepFn Batch DInner Loss)
    (g_params : StateDict) (real : Batch) (lr : Scalar) :
    Nat → PhaseRes DInner Loss Batch → PhaseRes DInner Loss Batch
  | 0, acc => acc
  | Nat.succ k, acc =>
      let r := train_d_model acc.params g_params real lr acc.inner acc.rng
      dPhase train_d_model g_params real lr k
        ⟨r.d_params, r.d_inner, r.rng, some r.loss, acc.events ++ [Event.dStep real]⟩

/-- The loop `for _ in range(g_loop_num): g_loss = train_g_model(...)`. -/
def gPhase {Batch GInner Loss : Type} (train_g_model : GStepFn GInner Loss)
    (d_params : StateDict) (lr : Scalar) :
    Nat → PhaseRes GInner Loss Batch → PhaseRes GInner Loss Batch
  | 0, acc => acc
  | Nat.succ k, acc =>
      let r := train_g_model acc.params d_params lr acc.inner acc.rng
      gPhase train_g_model d_params lr k
        ⟨r.g_params, r.g_inner, r.rng, some r.loss, acc.events ++ [Event.gStep]⟩

/-- The whole mutable state of one `Generator.train` run: both networks'
parameters, both optimizers (learning rate plus abstract inner state), both
schedulers, both loss histories (entries are `Option Loss`: `None` is
appended when the corresponding loop count is zero), the RNG state, the
checkpoint filesystem, and the effect trace. -/
structure TrainState (Batch DInner GInner Loss : Type) where
  d_params : StateDict
  g_params : StateDict
  d_lr : Scalar
  d_inner : DInner
  g_lr : Scalar
  g_inner : GInner
  d_sched : MultiStepLR
  g_sched : MultiStepLR
  d_losses : List (Option Loss)
  g_losses : List (Option Loss)
  rng : RngState
  fs : FS
  trace : List (Event Batch)

/-- The body of `for idx, (real_images, _) in enumerate(data_loader)`:
`d_loop_num` discriminator steps, append the last discriminator loss, then
`g_loop_num` generator steps, append the last generator loss. -/
def processBatch {Batch DInner GInner Loss : Type}
    (train_d_model : DStepFn Batch DInner Loss) (train_g_model : GStepFn GInner Loss)
    (d_loop_num g_loop_num : Nat) (real : Batch)
    (s : TrainState Batch DInner GInner Loss) : TrainState Batch DInner GInner Loss :=
  let d := dPhase train_d_model s.g_params real s.d_lr d_loop_num
    ⟨s.d_params, s.d_inner, s.rng, none, []⟩
  let g := gPhase train_g_model d.params s.g_lr g_loop_num
    ⟨s.g_params, s.g_inner, d.rng, none, []⟩
  { s with
    d_params := d.params
    d_inner := d.inner
    g_params := g.params
    g_inner := g.inner
    rng := g.rng
    d_losses := s.d_losses ++ [d.loss]
    g_losses := s.g_losses ++ [g.loss]
    trace := s.trace ++ d.events ++ g.events }

/-- The batch loop of one epoch: fold `processBatch` over the loader. -/
def runBatches {Batch DInner GInner Loss : Type}
    (train_d_model : DStepFn Batch DInner Loss) (train_g_model : GStepFn GInner Loss)
    (d_loop_num g_loop_num : Nat) (data_loader : List Batch)
    (s : TrainState Batch DInner GInner Loss) : TrainState Batch DInner GInner Loss :=
  data_loader.foldl
    (fun acc b => processBatch train_d_model train_g_model d_loop_num g_loop_num b acc) s

/-- The body of `for epoch in range(config.training.epochs)`: all batches,
then one step of each scheduler, the loss-plot write, the sample grid from
the fixed latent batch (named `E<epoch+1>.jpg`), and the checkpoint write
of the current generator parameters to `model_path`. -/
def runEpoch {Batch DInner GInner Loss : Type}
    (train_d_model : DStepFn Batch DInner Loss) (train_g_model : GStepFn GInner Loss)
    (d_loop_num g_loop_num : Nat) (data_loader : List Batch)
    (fixed_latent_vector : Mat) (model_path : String) (epoch : Nat)
    (s : TrainState Batch DInner GInner Loss) : TrainState Batch DInner GInner Loss :=
  let s1 := runBatches train_d_model train_g_model d_loop_num g_loop_num data_loader s
  let d := s1.d_sched.step s1.d_lr
  let g := s1.g_sched.step s1.g_lr
  { s1 with
    d_sched := d.1
    d_lr := d.2
    g_sched := g.1
    g_lr := g.2
    fs := fun p => if p = model_path then some s1.g_params else s1.fs p
    trace := s1.trace ++
      [Event.dSchedStep, Event.gSchedStep, Event.savePlot,
       Event.saveSamples ("E" ++ toString (epoch + 1) ++ ".jpg") fixed_latent_vector,
       Event.saveModel model_path] }

/-- Run `k` consecutive epochs starting at epoch index `e`. -/
def runEpochsFrom {Batch DInner GInner Loss : Type}
    (train_d_model : DStepFn Batch DInner Loss) (train_g_model : GStepFn GInner Loss)
    (d_loop_num g_loop_num : Nat) (data_loader : List Batch)
    (fixed_latent_vector : Mat) (model_path : String) :
    Nat → Nat → TrainState Batch DInner GInner Loss → TrainState Batch DInner GInner Loss
  | _, 0, s => s
  | e, Nat.succ k, s =>
      runEpochsFrom train_d_model train_g_model d_loop_num g_loop_num data_loader
        fixed_latent_vector model_path (e + 1) k
        (runEpoch train_d_model train_g_model d_loop_num g_loop_num data_loader
          fixed_latent_vector model_path e s)

/-- The initial `TrainState` of a run: freshly-initialized networks
(`init_weights` is not in `src/`, so the initial parameters `d0`, `g0` and
optimizer inner states `di0`, `gi0` are inputs), learning rates and
schedulers from the configuration, empty loss histories, the RNG state
after the fixed latent batch was sampled, the initial filesystem, and an
empty trace. -/
def initState {Batch DInner GInner Loss : Type} (cfg : TrainConfig)
    (d0 g0 : StateDict) (di0 : DInner) (gi0 : GInner) (fs0 : FS) (rng1 : RngState) :
    TrainState Batch DInner GInner Loss :=
  { d_params := d0
    g_params := g0
    d_lr := cfg.d_learning_rate
    d_inner := di0
    g_lr := cfg.g_learning_rate
    g_inner := gi0
    d_sched := ⟨cfg.d_milestones, cfg.d_lr_gamma, 0⟩
    g_sched := ⟨cfg.g_milestones, cfg.g_lr_gamma, 0⟩
    d_losses := []
    g_losses := []
    rng := rng1
    fs := fs0
    trace := [] }

/-- The state after the first `k` epochs of a `Generator.train` run: the
fixed latent batch is sampled once from the initial RNG state `rng0`, and
the epoch loop starts from `initState` with the advanced RNG state. -/
def trainStateAfter {Batch DInner GInner Loss : Type} (cfg : TrainConfig)
    (train_d_model : DStepFn Batch DInner Loss) (train_g_model : GStepFn GInner Loss)
    (stream : Nat → Nat → Nat → Scalar) (data_loader : List Batch)
    (d0 g0 : StateDict) (di0 : DInner) (gi0 : GInner)
    (model_path : String) (fs0 : FS) (rng0 : RngState) (k : Nat) :
    TrainState Batch DInner GInner Loss :=
  let fixed := randn stream cfg.sample_num cfg.latent_vector_size rng0
  runEpochsFrom train_d_model train_g_model cfg.d_loop_num cfg.g_loop_num data_loader
    fixed.1 model_path 0 k (initState cfg d0 g0 di0 gi0 fs0 fixed.2)

/-- `Generator.train`: sample the fixed latent batch once, then run the
configured number of epochs.  The data loader is the per-epoch sequence of
real-image batches (its length is the batch count `⌊N / batch_size⌋` fixed
by `drop_last=True`; the shuffle order does not change the count). -/
def Generator.train {Batch DInner GInner Loss : Type} (cfg : TrainConfig)
    (train_d_model : DStepFn Batch DInner Loss) (train_g_model : GStepFn GInner Loss)
    (stream : Nat → Nat → Nat → Scalar) (data_loader : List Batch)
    (d0 g0 : StateDict) (di0 : DInner) (gi0 : GInner)
    (model_path : String) (fs0 : FS) (rng0 : RngState) :
    TrainState Batch DInner GInner Loss :=
  trainStateAfter cfg train_d_model train_g_model stream data_loader d0 g0 di0 gi0
    model_path fs0 rng0 cfg.epochs

/-- The latent batches the sample grids of a run were generated from, in
order: the `saveSamples` events of the trace. -/
def sampleLatents {Batch : Type} : List (Event Batch) → List Mat
  | [] => []
  | Event.saveSamples _ lat :: t => lat :: sampleLatents t
  | _ :: t => sampleLatents t

/-- The paths the generator was checkpointed to during a run, in order:
the `saveModel` events of the trace. -/
def checkpointPaths {Batch : Type} : List (Event Batch) → List String
  | [] => []
  | Event.saveModel p :: t => p :: checkpointPaths t
  | _ :: t => checkpointPaths t

/-- Whether an event is a discriminator-scheduler step. -/
def isDSchedStep {Batch : Type} : Event Batch → Bool
  | Event.dSchedStep => true
  | _ => false

/-- Whether an event is a generator-scheduler step. -/
def isGSchedStep {Batch : Type} : Event Batch → Bool
  | Event.gSchedStep => true
  | _ => false

/-- The per-batch update events of one epoch: for each batch of the loader
in order, `d_loop_num` discriminator steps on that batch followed by
`g_loop_num` generator steps. -/
def batchEvents {Batch : Type} (d_loop_num g_loop_num : Nat) (data_loader : List Batch) :
    List (Event Batch) :=
  (data_loader.map fun b =>
    List.replicate d_loop_num (Event.dStep b) ++
    List.replicate g_loop_num (Event.gStep : Event Batch)).flatten

/-! ## The dataset transform pipeline -/

/-- A raw on-disk image as loaded by PIL (any channel count, any size). -/
structure RawImage where
  channels : Nat
  h : Nat
  w : Nat
  px : Nat → Nat → Nat → Scalar

/-- A tensor image as a list of channel planes. -/
structure TensorImage where
  chans : List (Nat → Nat → Scalar)

/-- A value flowing through a torchvision transform pipeline: a raw (PIL)
image before `ToTensor`, a tensor image after. -/
inductive TItem where
  | raw (r : RawImage)
  | ten (t : TensorImage)

/-- `transforms.Compose`: apply the transforms of the list in order. -/
def Compose (ts : List (TItem → TItem)) (x : TItem) : TItem :=
  ts.foldl (fun a f => f a) x

/-- Lift a raw-image transform (`Resize`, `CenterCrop`) to pipeline items. -/
def onRaw (f : RawImage → RawImage) : TItem → TItem
  | TItem.raw r => TItem.raw (f r)
  | x => x

/-- Lift a tensor transform to pipeline items. -/
def onTen (f : TensorImage → TensorImage) : TItem → TItem
  | TItem.ten t => TItem.ten (f t)
  | x => x

/-- `transforms.ToTensor` as a pipeline stage; the conversion itself
(layout change and scaling to `[0, 1]`) is kept abstract. -/
def toTensorT (toTensor : RawImage → TensorImage) : TItem → TItem
  | TItem.raw r => TItem.ten (toTensor r)
  | x => x

/-- The `lambda x: x[:3]` stage: keep only the first 3 channel planes. -/
def channelTruncate (t : TensorImage) : TensorImage :=
  ⟨t.chans.take 3⟩

/-- `transforms.Normalize(mean, std)` with the same mean and std for every
channel: `x ↦ (x − mean) / std` pointwise. -/
def Normalize (mean std : Scalar) (t : TensorImage) : TensorImage :=
  ⟨t.chans.map fun p => fun i j => (p i j - mean) / std⟩

/-- The transform pipeline `Generator.train` builds:
`Compose [Resize(image_size), CenterCrop(image_size), ToTensor(), x[:3],
Normalize((0.5,0.5,0.5), (0.5,0.5,0.5))]`.  `resize` and `centerCrop` are
the abstract torchvision geometry operations, parameterized by the target
size. -/
def trainTransform (resize centerCrop : Nat → RawImage → RawImage)
    (toTensor : RawImage → TensorImage) (image_size : Nat) : TItem → TItem :=
  Compose
    [onRaw (resize image_size),
     onRaw (centerCrop image_size),
     toTensorT toTensor,
     onTen channelTruncate,
     onTen (Normalize (1 / 2) (1 / 2))]

/-- Modelled from the spec: `datasets.RealImageDataset` (not in `src/`)
yields, for each raw image of the training directory, the pair of the
transformed image and a label. -/
def RealImageDataset (raws : List RawImage) (labels : RawImage → Nat)
    (transform : TItem → TItem) : List (TItem × Nat) :=
  raws.map fun r => (transform (TItem.raw r), labels r)

/-! ## A small concrete training run, used to evaluate the embedding -/

/-- A small concrete configuration: 2 epochs, one update step of each kind
per batch, learning-rate decay by 1/2 when epoch 2 is reached. -/
def smallCfg : TrainConfig where
  image_size := 64
  latent_vector_size := 100
  batch_size := 4
  sample_num := 9
  epochs := 2
  d_loop_num := 1
  g_loop_num := 1
  d_learning_rate := 1
  g_learning_rate := 1
  d_milestones := [2]
  d_lr_gamma := 1 / 2
  g_milestones := [2]
  g_lr_gamma := 1 / 2

/-- A concrete discriminator step (batches are numbered by `Nat`, optimizer
inner state is trivial): leaves the parameters alone, consumes one RNG
draw, reports loss 7. -/
def smallDStep : DStepFn Nat Unit Nat := fun dp _ _ _ _ rng => ⟨dp, (), rng + 1, 7⟩

/-- A concrete generator step: reports loss 8. -/
def smallGStep : GStepFn Unit Nat := fun gp _ _ _ rng => ⟨gp, (), rng + 1, 8⟩

/-- A concrete all-zero sample stream. -/
def smallStream : Nat → Nat → Nat → Scalar := fun _ _ _ => 0

/-- A concrete data loader of three batches per epoch. -/
def smallLoader : List Nat := [10, 11, 12]

/-- The concrete checkpoint path of the small run. -/
def smallPath : String := "models/WGAN.model"

/-- The initially empty checkpoint filesystem of the small run. -/
def smallFS : FS := fun _ => none

/-- The final state of the small concrete training run. -/
def smallRun : TrainState Nat Unit Unit Nat :=
  Generator.train smallCfg smallDStep smallGStep smallStream smallLoader
    [] [] () () smallPath smallFS 0

/-! ## Theorems about the Generator service -/

/-- C2: for a fixed loaded model and a fixed seed `S`, two calls
`generate(seed = S)` with no explicit latent vector return the same image,
whatever the global RNG state was before each call: the seeded
latent-vector sampling is deterministic. -/
theorem generate_seed_deterministic (arch : GArch) (stream : Nat → Nat → Nat → Scalar)
    (latent_size : Nat) (path : String) (m : models.Generator) (S : Nat)
    (s1 s2 : RngState) :
    (Generator.generate arch stream latent_size ⟨path, some m⟩ s1 (some S) none).1 =
    (Generator.generate arch stream latent_size ⟨path, some m⟩ s2 (some S) none).1 :=
  rfl

/-- C3: `generate` uses an explicitly supplied latent vector verbatim;
with no latent vector it runs the model on the freshly drawn
standard-normal sample (row 0 of the `randn` draw at the current —
or seeded — RNG state); and the returned image is the denormalized model
output in channel-last layout (`val i j c` is channel `c` of the
denormalized output at pixel `(i, j)`). -/
theorem generate_uses_latent_and_denormalizes (arch : GArch)
    (stream : Nat → Nat → Nat → Scalar) (latent_size : Nat) (path : String)
    (m : models.Generator) (st : RngState) (seed : Option Nat) (S : Nat)
    (v : Nat → Scalar) :
    ((Generator.generate arch stream latent_size ⟨path, some m⟩ st seed (some v)).1 =
      Except.ok (transpose120 (denormalize (arch m.params v)))) ∧
    ((Generator.generate arch stream latent_size ⟨path, some m⟩ st none none).1 =
      Except.ok (transpose120 (denormalize (arch m.params fun j => stream st 0 j)))) ∧
    ((Generator.generate arch stream latent_size ⟨path, some m⟩ st (some S) none).1 =
      Except.ok (transpose120 (denormalize
        (arch m.params fun j => stream (manual_seed S) 0 j)))) ∧
    (∀ img : Image3, ∀ i j c : Nat,
      (transpose120 (denormalize img)).val i j c = img.val c i j / 2 + 1 / 2) := by
  refine ⟨?_, rfl, rfl, fun img i j c => rfl⟩
  cases seed <;> rfl

/-- C4: for every model state, `save_model()` followed by `load_model()`
at the fixed model path succeeds and reproduces the network's parameter
values exactly (and leaves the reloaded network in eval mode). -/
theorem save_then_load_roundtrip (path : String) (m : models.Generator) (fs : FS) :
    ∃ fs2, Generator.save_model ⟨path, some m⟩ fs = Except.ok fs2 ∧
      Generator.load_model ⟨path, some m⟩ fs2 =
        Except.ok ⟨path, some ⟨m.params, NetMode.eval⟩⟩ := by
  refine ⟨_, rfl, ?_⟩
  simp [Generator.load_model]

/-- C10: a freshly constructed `Generator` has `model = None`, and both
`generate()` (with any seed / latent-vector arguments) and `save_model()`
fail on it: the public interface has no guard for the unloaded-model
state. -/
theorem fresh_generator_unloaded (model_name : String) (arch : GArch)
    (stream : Nat → Nat → Nat → Scalar) (latent_size : Nat) (st : RngState)
    (seed : Option Nat) (lv : Option (Nat → Scalar)) (fs : FS) :
    (Generator.init model_name).model = none ∧
    (∃ e, (Generator.generate arch stream latent_size (Generator.init model_name)
      st seed lv).1 = Except.error e) ∧
    (∃ e, Generator.save_model (Generator.init model_name) fs = Except.error e) :=
  ⟨rfl, ⟨_, rfl⟩, ⟨_, rfl⟩⟩

/-! ## Helper lemmas about the training loop -/

/-- Each iteration of the discriminator loop emits one `dStep` event
carrying the epoch's real batch. -/
theorem dPhase_events {Batch DInner Loss : Type} (f : DStepFn Batch DInner Loss)
    (gp : StateDict) (real : Batch) (lr : Scalar) :
    ∀ (k : Nat) (acc : PhaseRes DInner Loss Batch),
      (dPhase f gp real lr k acc).events
        = acc.events ++ List.replicate k (Event.dStep real)
  | 0, _ => by simp [dPhase]
  | Nat.succ k, acc => by
    rw [dPhase, dPhase_events f gp real lr k]
    simp [List.replicate_succ]

/-- Each iteration of the generator loop emits one `gStep` event. -/
theorem gPhase_events {Batch GInner Loss : Type} (f : GStepFn GInner Loss)
    (dp : StateDict) (lr : Scalar) :
    ∀ (k : Nat) (acc : PhaseRes GInner Loss Batch),
      (gPhase f dp lr k acc).events
        = acc.events ++ List.replicate k (Event.gStep : Event Batch)
  | 0, _ => by simp [gPhase]
  | Nat.succ k, acc => by
    rw [gPhase, gPhase_events f dp lr k]
    simp [List.replicate_succ]

/-- One batch appends exactly its discriminator steps (each on the real
batch) followed by its generator steps to the trace. -/
theorem processBatch_trace {Batch DInner GInner Loss : Type}
    (f : DStepFn Batch DInner Loss) (g : GStepFn GInner Loss) (Kd Kg : Nat)
    (real : Batch) (s : TrainState Batch DInner GInner Loss) :
    (processBatch f g Kd Kg real s).trace
      = s.trace ++ List.replicate Kd (Event.dStep real)
        ++ List.replicate Kg (Event.gStep : Event Batch) := by
  simp [processBatch, dPhase_events, gPhase_events]

/-- One batch appends exactly one entry to each loss history. -/
theorem processBatch_losses {Batch DInner GInner Loss : Type}
    (f : DStepFn Batch DInner Loss) (g : GStepFn GInner Loss) (Kd Kg : Nat)
    (real : Batch) (s : TrainState Batch DInner GInner Loss) :
    (processBatch f g Kd Kg real s).d_losses.length = s.d_losses.length + 1 ∧
    (processBatch f g Kd Kg real s).g_losses.length = s.g_losses.length + 1 := by
  constructor <;> simp [processBatch]

/-- A batch step touches neither learning rate, nor scheduler, nor the
checkpoint filesystem. -/
theorem processBatch_frame {Batch DInner GInner Loss : Type}
    (f : DStepFn Batch DInner Loss) (g : GStepFn GInner Loss) (Kd Kg : Nat)
    (real : Batch) (s : TrainState Batch DInner GInner Loss) :
    (processBatch f g Kd Kg real s).d_lr = s.d_lr ∧
    (processBatch f g Kd Kg real s).g_lr = s.g_lr ∧
    (processBatch f g Kd Kg real s).d_sched = s.d_sched ∧
    (processBatch f g Kd Kg real s).g_sched = s.g_sched ∧
    (processBatch f g Kd Kg real s).fs = s.fs :=
  ⟨rfl, rfl, rfl, rfl, rfl⟩

/-- The batch loop of one epoch: trace, loss-history lengths, and the
frame (learning rates, schedulers, filesystem untouched). -/
theorem runBatches_facts {Batch DInner GInner Loss : Type}
    (f : DStepFn Batch DInner Loss) (g : GStepFn GInner Loss) (Kd Kg : Nat) :
    ∀ (loader : List Batch) (s : TrainState Batch DInner GInner Loss),
      (runBatches f g Kd Kg loader s).trace = s.trace ++ batchEvents Kd Kg loader ∧
      (runBatches f g Kd Kg loader s).d_losses.length
        = s.d_losses.length + loader.length ∧
      (runBatches f g Kd Kg loader s).g_losses.length
        = s.g_losses.length + loader.length ∧
      (runBatches f g Kd Kg loader s).d_lr = s.d_lr ∧
      (runBatches f g Kd Kg loader s).g_lr = s.g_lr ∧
      (runBatches f g Kd Kg loader s).d_sched = s.d_sched ∧
      (runBatches f g Kd Kg loader s).g_sched = s.g_sched ∧
      (runBatches f g Kd Kg loader s).fs = s.fs
  | [], s => by simp [runBatches, batchEvents]
  | b :: l, s => by
    obtain ⟨iht, ihd, ihg, ihdlr, ihglr, ihds, ihgs, ihfs⟩ :=
      runBatches_facts f g Kd Kg l (processBatch f g Kd Kg b s)
    have h0 : runBatches f g Kd Kg (b :: l) s
        = runBatches f g Kd Kg l (processBatch f g Kd Kg b s) := rfl
    obtain ⟨pbd, pbg⟩ := processBatch_losses f g Kd Kg b s
    obtain ⟨fr1, fr2, fr3, fr4, fr5⟩ := processBatch_frame f g Kd Kg b s
    refine ⟨?_, ?_, ?_, ?_, ?_, ?_, ?_, ?_⟩
    · rw [h0, iht, processBatch_trace]
      simp [batchEvents]
    · rw [h0, ihd, pbd]
      simp [Nat.add_assoc, Nat.add_comm 1 l.length]
    · rw [h0, ihg, pbg]
      simp [Nat.add_assoc, Nat.add_comm 1 l.length]
    · rw [h0, ihdlr, fr1]
    · rw [h0, ihglr, fr2]
    · rw [h0, ihds, fr3]
    · rw [h0, ihgs, fr4]
    · rw [h0, ihfs, fr5]

/-- One epoch appends the per-batch events of the whole loader, then the
two scheduler steps and the three file writes, in program order. -/
theorem runEpoch_trace {Batch DInner GInner Loss : Type}
    (f : DStepFn Batch DInner Loss) (g : GStepFn GInner Loss) (Kd Kg : Nat)
    (loader : List Batch) (fixed : Mat) (path : String) (e : Nat)
    (s : TrainState Batch DInner GInner Loss) :
    (runEpoch f g Kd Kg loader fixed path e s).trace
      = s.trace ++ batchEvents Kd Kg loader ++
        [Event.dSchedStep, Event.gSchedStep, Event.savePlot,
         Event.saveSamples ("E" ++ toString (e + 1) ++ ".jpg") fixed,
         Event.saveModel path] := by
  have h := (runBatches_facts f g Kd Kg loader s).1
  simp only [runEpoch]
  rw [h]

/-- One epoch appends `loader.length` entries to each loss history. -/
theorem runEpoch_losses {Batch DInner GInner Loss : Type}
    (f : DStepFn Batch DInner Loss) (g : GStepFn GInner Loss) (Kd Kg : Nat)
    (loader : List Batch) (fixed : Mat) (path : String) (e : Nat)
    (s : TrainState Batch DInner GInner Loss) :
    (runEpoch f g Kd Kg loader fixed path e s).d_losses.length
      = s.d_losses.length + loader.length ∧
    (runEpoch f g Kd Kg loader fixed path e s).g_losses.length
      = s.g_losses.length + loader.length := by
  obtain ⟨_, hd, hg, _, _, _, _, _⟩ := runBatches_facts f g Kd Kg loader s
  exact ⟨hd, hg⟩

/-- The learning rates and scheduler states after one epoch: the epoch
counter advances by one, and each learning rate is multiplied by its gamma
once for each occurrence of the new epoch index among its milestones. -/
theorem runEpoch_sched {Batch DInner GInner Loss : Type}
    (f : DStepFn Batch DInner Loss) (g : GStepFn GInner Loss) (Kd Kg : Nat)
    (loader : List Batch) (fixed : Mat) (path : String) (e : Nat)
    (s : TrainState Batch DInner GInner Loss) :
    (runEpoch f g Kd Kg loader fixed path e s).d_lr
      = s.d_lr * s.d_sched.gamma ^ (s.d_sched.milestones.count (s.d_sched.last_epoch + 1)) ∧
    (runEpoch f g Kd Kg loader fixed path e s).g_lr
      = s.g_lr * s.g_sched.gamma ^ (s.g_sched.milestones.count (s.g_sched.last_epoch + 1)) ∧
    (runEpoch f g Kd Kg loader fixed path e s).d_sched
      = ⟨s.d_sched.milestones, s.d_sched.gamma, s.d_sched.last_epoch + 1⟩ ∧
    (runEpoch f g Kd Kg loader fixed path e s).g_sched
      = ⟨s.g_sched.milestones, s.g_sched.gamma, s.g_sched.last_epoch + 1⟩ := by
  obtain ⟨_, _, _, hdlr, hglr, hds, hgs, _⟩ := runBatches_facts f g Kd Kg loader s
  refine ⟨?_, ?_, ?_, ?_⟩ <;>
    simp only [runEpoch, MultiStepLR.step, hdlr, hglr, hds, hgs]

/-- The checkpoint filesystem after one epoch: the model path now holds
the epoch's final generator parameters; every other path is untouched. -/
theorem runEpoch_fs {Batch DInner GInner Loss : Type}
    (f : DStepFn Batch DInner Loss) (g : GStepFn GInner Loss) (Kd Kg : Nat)
    (loader : List Batch) (fixed : Mat) (path : String) (e : Nat)
    (s : TrainState Batch DInner GInner Loss) (p : String) :
    (runEpoch f g Kd Kg loader fixed path e s).fs p
      = if p = path
        then some ((runEpoch f g Kd Kg loader fixed path e s).g_params)
        else s.fs p := by
  obtain ⟨_, _, _, _, _, _, _, hfs⟩ := runBatches_facts f g Kd Kg loader s
  simp only [runEpoch, hfs]

/-- Running `k + 1` epochs is running `k` epochs and then one more. -/
theorem runEpochsFrom_succ {Batch DInner GInner Loss : Type}
    (f : DStepFn Batch DInner Loss) (g : GStepFn GInner Loss) (Kd Kg : Nat)
    (loader : List Batch) (fixed : Mat) (path : String) :
    ∀ (k e : Nat) (s : TrainState Batch DInner GInner Loss),
      runEpochsFrom f g Kd Kg loader fixed path e (k + 1) s
        = runEpoch f g Kd Kg loader fixed path (e + k)
            (runEpochsFrom f g Kd Kg loader fixed path e k s)
  | 0, e, s => rfl
  | Nat.succ k, e, s => by
    have ih := runEpochsFrom_succ f g Kd Kg loader fixed path k (e + 1)
      (runEpoch f g Kd Kg loader fixed path e s)
    have h0 : runEpochsFrom f g Kd Kg loader fixed path e (k + 1 + 1) s
        = runEpochsFrom f g Kd Kg loader fixed path (e + 1) (k + 1)
            (runEpoch f g Kd Kg loader fixed path e s) := rfl
    rw [h0, ih]
    have h1 : e + 1 + k = e + (k + 1) := by omega
    rw [h1]
    rfl

/-- `sampleLatents` distributes over trace concatenation. -/
theorem sampleLatents_append {Batch : Type} :
    ∀ (l1 l2 : List (Event Batch)),
      sampleLatents (l1 ++ l2) = sampleLatents l1 ++ sampleLatents l2
  | [], _ => rfl
  | e :: t, l2 => by
    cases e <;> simp [sampleLatents, sampleLatents_append t l2]

/-- `checkpointPaths` distributes over trace concatenation. -/
theorem checkpointPaths_append {Batch : Type} :
    ∀ (l1 l2 : List (Event Batch)),
      checkpointPaths (l1 ++ l2) = checkpointPaths l1 ++ checkpointPaths l2
  | [], _ => rfl
  | e :: t, l2 => by
    cases e <;> simp [checkpointPaths, checkpointPaths_append t l2]

/-- The per-batch events contain no sample-grid write and no checkpoint
write. -/
theorem batchEvents_no_writes {Batch : Type} (Kd Kg : Nat) :
    ∀ loader : List Batch,
      sampleLatents (batchEvents Kd Kg loader) = [] ∧
      checkpointPaths (batchEvents Kd Kg loader) = []
  | [] => ⟨rfl, rfl⟩
  | b :: l => by
    obtain ⟨ihs, ihc⟩ := batchEvents_no_writes Kd Kg l
    have hd : ∀ n, sampleLatents (List.replicate n (Event.dStep b)) = [] ∧
        checkpointPaths (List.replicate n (Event.dStep b)) = [] := by
      intro n
      induction n with
      | zero => exact ⟨rfl, rfl⟩
      | succ n ih => simpa [List.replicate_succ, sampleLatents, checkpointPaths] using ih
    have hg : ∀ n, sampleLatents (List.replicate n (Event.gStep : Event Batch)) = [] ∧
        checkpointPaths (List.replicate n (Event.gStep : Event Batch)) = [] := by
      intro n
      induction n with
      | zero => exact ⟨rfl, rfl⟩
      | succ n ih => simpa [List.replicate_succ, sampleLatents, checkpointPaths] using ih
    have hbe : batchEvents Kd Kg (b :: l)
        = (List.replicate Kd (Event.dStep b)
            ++ List.replicate Kg (Event.gStep : Event Batch))
          ++ batchEvents Kd Kg l := by
      simp [batchEvents]
    rw [hbe]
    constructor
    · rw [sampleLatents_append, sampleLatents_append, (hd Kd).1, (hg Kg).1, ihs]
      rfl
    · rw [checkpointPaths_append, checkpointPaths_append, (hd Kd).2, (hg Kg).2, ihc]
      rfl

/-- Unfolding one more epoch of a `Generator.train` run. -/
theorem trainStateAfter_succ {Batch DInner GInner Loss : Type} (cfg : TrainConfig)
    (f : DStepFn Batch DInner Loss) (g : GStepFn GInner Loss)
    (stream : Nat → Nat → Nat → Scalar) (loader : List Batch)
    (d0 g0 : StateDict) (di0 : DInner) (gi0 : GInner)
    (path : String) (fs0 : FS) (rng0 : RngState) (k : Nat) :
    trainStateAfter cfg f g stream loader d0 g0 di0 gi0 path fs0 rng0 (k + 1)
      = runEpoch f g cfg.d_loop_num cfg.g_loop_num loader
          (randn stream cfg.sample_num cfg.latent_vector_size rng0).1 path k
          (trainStateAfter cfg f g stream loader d0 g0 di0 gi0 path fs0 rng0 k) := by
  show runEpochsFrom f g cfg.d_loop_num cfg.g_loop_num loader
      (randn stream cfg.sample_num cfg.latent_vector_size rng0).1 path 0 (k + 1)
      (initState cfg d0 g0 di0 gi0 fs0
        (randn stream cfg.sample_num cfg.latent_vector_size rng0).2)
    = _
  rw [runEpochsFrom_succ, Nat.zero_add]
  rfl

/-- The scheduler states after `k` epochs: milestones and gamma come from
the configuration and the epoch counter equals `k`: each scheduler has been
stepped exactly once per completed epoch. -/
theorem trainStateAfter_sched {Batch DInner GInner Loss : Type} (cfg : TrainConfig)
    (f : DStepFn Batch DInner Loss) (g : GStepFn GInner Loss)
    (stream : Nat → Nat → Nat → Scalar) (loader : List Batch)
    (d0 g0 : StateDict) (di0 : DInner) (gi0 : GInner)
    (path : String) (fs0 : FS) (rng0 : RngState) (k : Nat) :
    (trainStateAfter cfg f g stream loader d0 g0 di0 gi0 path fs0 rng0 k).d_sched
        = ⟨cfg.d_milestones, cfg.d_lr_gamma, k⟩ ∧
    (trainStateAfter cfg f g stream loader d0 g0 di0 gi0 path fs0 rng0 k).g_sched
        = ⟨cfg.g_milestones, cfg.g_lr_gamma, k⟩ := by
  induction k with
  | zero => exact ⟨rfl, rfl⟩
  | succ k ih =>
    obtain ⟨ihd, ihg⟩ := ih
    rw [trainStateAfter_succ]
    obtain ⟨_, _, hds, hgs⟩ := runEpoch_sched f g cfg.d_loop_num cfg.g_loop_num loader
      (randn stream cfg.sample_num cfg.latent_vector_size rng0).1 path k
      (trainStateAfter cfg f g stream loader d0 g0 di0 gi0 path fs0 rng0 k)
    rw [hds, hgs, ihd, ihg]
    exact ⟨rfl, rfl⟩

/-- The learning-rate update across one epoch boundary: crossing into
epoch `k + 1` multiplies each learning rate by its gamma once per
occurrence of `k + 1` among its milestones. -/
theorem trainStateAfter_lr {Batch DInner GInner Loss : Type} (cfg : TrainConfig)
    (f : DStepFn Batch DInner Loss) (g : GStepFn GInner Loss)
    (stream : Nat → Nat → Nat → Scalar) (loader : List Batch)
    (d0 g0 : StateDict) (di0 : DInner) (gi0 : GInner)
    (path : String) (fs0 : FS) (rng0 : RngState) (k : Nat) :
    (trainStateAfter cfg f g stream loader d0 g0 di0 gi0 path fs0 rng0 (k + 1)).d_lr
        = (trainStateAfter cfg f g stream loader d0 g0 di0 gi0 path fs0 rng0 k).d_lr
          * cfg.d_lr_gamma ^ (cfg.d_milestones.count (k + 1)) ∧
    (trainStateAfter cfg f g stream loader d0 g0 di0 gi0 path fs0 rng0 (k + 1)).g_lr
        = (trainStateAfter cfg f g stream loader d0 g0 di0 gi0 path fs0 rng0 k).g_lr
          * cfg.g_lr_gamma ^ (cfg.g_milestones.count (k + 1)) := by
  obtain ⟨hds, hgs⟩ :=
    trainStateAfter_sched cfg f g stream loader d0 g0 di0 gi0 path fs0 rng0 k
  rw [trainStateAfter_succ]
  obtain ⟨hd, hg, _, _⟩ := runEpoch_sched f g cfg.d_loop_num cfg.g_loop_num loader
    (randn stream cfg.sample_num cfg.latent_vector_size rng0).1 path k
    (trainStateAfter cfg f g stream loader d0 g0 di0 gi0 path fs0 rng0 k)
  rw [hd, hg, hds, hgs]
  exact ⟨rfl, rfl⟩

/-- The loss histories grow by the batch count each epoch. -/
theorem trainStateAfter_losses {Batch DInner GInner Loss : Type} (cfg : TrainConfig)
    (f : DStepFn Batch DInner Loss) (g : GStepFn GInner Loss)
    (stream : Nat → Nat → Nat → Scalar) (loader : List Batch)
    (d0 g0 : StateDict) (di0 : DInner) (gi0 : GInner)
    (path : String) (fs0 : FS) (rng0 : RngState) (k : Nat) :
    (trainStateAfter cfg f g stream loader d0 g0 di0 gi0 path fs0 rng0 k).d_losses.length
        = k * loader.length ∧
    (trainStateAfter cfg f g stream loader d0 g0 di0 gi0 path fs0 rng0 k).g_losses.length
        = k * loader.length := by
  induction k with
  | zero =>
    constructor <;> simp [trainStateAfter, runEpochsFrom, initState]
  | succ k ih =>
    obtain ⟨ihd, ihg⟩ := ih
    rw [trainStateAfter_succ]
    obtain ⟨hd, hg⟩ := runEpoch_losses f g cfg.d_loop_num cfg.g_loop_num loader
      (randn stream cfg.sample_num cfg.latent_vector_size rng0).1 path k
      (trainStateAfter cfg f g stream loader d0 g0 di0 gi0 path fs0 rng0 k)
    rw [hd, hg, ihd, ihg]
    constructor <;> ring

/-- After `k` epochs, the trace holds exactly one sample-grid write per
epoch, each generated from the latent batch drawn at the pre-loop RNG
state, and exactly one checkpoint write per epoch, each to the model
path. -/
theorem trainStateAfter_writes {Batch DInner GInner Loss : Type} (cfg : TrainConfig)
    (f : DStepFn Batch DInner Loss) (g : GStepFn GInner Loss)
    (stream : Nat → Nat → Nat → Scalar) (loader : List Batch)
    (d0 g0 : StateDict) (di0 : DInner) (gi0 : GInner)
    (path : String) (fs0 : FS) (rng0 : RngState) (k : Nat) :
    sampleLatents (trainStateAfter cfg f g stream loader d0 g0 di0 gi0 path fs0 rng0 k).trace
        = List.replicate k (randn stream cfg.sample_num cfg.latent_vector_size rng0).1 ∧
    checkpointPaths (trainStateAfter cfg f g stream loader d0 g0 di0 gi0 path fs0 rng0 k).trace
        = List.replicate k path := by
  induction k with
  | zero => exact ⟨rfl, rfl⟩
  | succ k ih =>
    obtain ⟨ihs, ihc⟩ := ih
    rw [trainStateAfter_succ]
    rw [runEpoch_trace f g cfg.d_loop_num cfg.g_loop_num loader
      (randn stream cfg.sample_num cfg.latent_vector_size rng0).1 path k
      (trainStateAfter cfg f g stream loader d0 g0 di0 gi0 path fs0 rng0 k)]
    obtain ⟨hbs, hbc⟩ := batchEvents_no_writes cfg.d_loop_num cfg.g_loop_num loader
    constructor
    · rw [sampleLatents_append, sampleLatents_append, ihs, hbs]
      simp [sampleLatents, List.replicate_succ']
    · rw [checkpointPaths_append, checkpointPaths_append, ihc, hbc]
      simp [checkpointPaths, List.replicate_succ']

/-- After at least one epoch, the checkpoint file at the model path holds
exactly the current generator parameters, and every other path still holds
what the initial filesystem held. -/
theorem trainStateAfter_fs {Batch DInner GInner Loss : Type} (cfg : TrainConfig)
    (f : DStepFn Batch DInner Loss) (g : GStepFn GInner Loss)
    (stream : Nat → Nat → Nat → Scalar) (loader : List Batch)
    (d0 g0 : StateDict) (di0 : DInner) (gi0 : GInner)
    (path : String) (fs0 : FS) (rng0 : RngState) (k : Nat) (p : String) :
    (trainStateAfter cfg f g stream loader d0 g0 di0 gi0 path fs0 rng0 (k + 1)).fs p
      = if p = path
        then some
          ((trainStateAfter cfg f g stream loader d0 g0 di0 gi0 path fs0 rng0 (k + 1)).g_params)
        else fs0 p := by
  induction k with
  | zero =>
    rw [trainStateAfter_succ, runEpoch_fs]
    by_cases hp : p = path <;> simp [hp]
    exact rfl
  | succ k ih =>
    rw [trainStateAfter_succ, runEpoch_fs]
    by_cases hp : p = path <;> simp [hp]
    rw [ih]
    simp [hp]

/-- `countP` of a replicated element the predicate rejects is zero. -/
theorem countP_replicate_false {α : Type} (p : α → Bool) (x : α) (h : p x = false) :
    ∀ n, (List.replicate n x).countP p = 0
  | 0 => rfl
  | n + 1 => by
    rw [List.replicate_succ, List.countP_cons]
    simp [h, countP_replicate_false p x h n]

/-- The per-batch events contain no scheduler step of either kind. -/
theorem batchEvents_no_sched {Batch : Type} (Kd Kg : Nat) :
    ∀ loader : List Batch,
      (batchEvents Kd Kg loader).countP isDSchedStep = 0 ∧
      (batchEvents Kd Kg loader).countP isGSchedStep = 0
  | [] => ⟨rfl, rfl⟩
  | b :: l => by
    obtain ⟨ihd, ihg⟩ := batchEvents_no_sched Kd Kg l
    have hbe : batchEvents Kd Kg (b :: l)
        = (List.replicate Kd (Event.dStep b)
            ++ List.replicate Kg (Event.gStep : Event Batch))
          ++ batchEvents Kd Kg l := by
      simp [batchEvents]
    rw [hbe]
    constructor <;> rw [List.countP_append, List.countP_append] <;>
      simp [ihd, ihg,
        countP_replicate_false isDSchedStep (Event.dStep b) rfl,
        countP_replicate_false isGSchedStep (Event.dStep b) rfl,
        countP_replicate_false isDSchedStep (Event.gStep : Event Batch) rfl,
        countP_replicate_false isGSchedStep (Event.gStep : Event Batch) rfl]

/-! ## Theorems about the training loop -/

/-- C1 (amended): after one full run over `E` configured epochs with `B`
batches per epoch, each loss history has length `E * B`: one entry is
appended per mini-batch (the loss of that batch's last update step), not
one per epoch. -/
theorem train_loss_history_length {Batch DInner GInner Loss : Type} (cfg : TrainConfig)
    (f : DStepFn Batch DInner Loss) (g : GStepFn GInner Loss)
    (stream : Nat → Nat → Nat → Scalar) (loader : List Batch)
    (d0 g0 : StateDict) (di0 : DInner) (gi0 : GInner)
    (path : String) (fs0 : FS) (rng0 : RngState) :
    (Generator.train cfg f g stream loader d0 g0 di0 gi0 path fs0 rng0).d_losses.length
        = cfg.epochs * loader.length ∧
    (Generator.train cfg f g stream loader d0 g0 di0 gi0 path fs0 rng0).g_losses.length
        = cfg.epochs * loader.length :=
  trainStateAfter_losses cfg f g stream loader d0 g0 di0 gi0 path fs0 rng0 cfg.epochs

/-- C1 (counterexample): in the small concrete run — 2 epochs, 3 batches
per epoch — both loss histories have length 6, not the epoch count 2. -/
theorem train_loss_history_not_epoch_count :
    ¬ (smallRun.d_losses.length = smallCfg.epochs ∧
       smallRun.g_losses.length = smallCfg.epochs) := by
  decide

/-- C5: the sample grids of a full run are generated from one latent
batch per epoch, and every one of them is the batch drawn by `randn` at
the pre-loop RNG state `rng0` — sampled once before the epoch loop and
never resampled. -/
theorem sample_grids_use_fixed_latent {Batch DInner GInner Loss : Type} (cfg : TrainConfig)
    (f : DStepFn Batch DInner Loss) (g : GStepFn GInner Loss)
    (stream : Nat → Nat → Nat → Scalar) (loader : List Batch)
    (d0 g0 : StateDict) (di0 : DInner) (gi0 : GInner)
    (path : String) (fs0 : FS) (rng0 : RngState) :
    sampleLatents (Generator.train cfg f g stream loader d0 g0 di0 gi0 path fs0 rng0).trace
      = List.replicate cfg.epochs
          (randn stream cfg.sample_num cfg.latent_vector_size rng0).1 :=
  (trainStateAfter_writes cfg f g stream loader d0 g0 di0 gi0 path fs0 rng0 cfg.epochs).1

/-- C6: a mini-batch runs exactly `d_loop_num` discriminator steps — each
on the batch's real images — followed by exactly `g_loop_num` generator
steps (the trace increment); the resulting discriminator parameters are
exactly the output of the discriminator phase (untouched by the generator
phase), and the generator phase starts from the pre-batch generator
parameters (untouched by the discriminator phase) and the post-phase
discriminator parameters. -/
theorem batch_update_schedule {Batch DInner GInner Loss : Type}
    (train_d_model : DStepFn Batch DInner Loss) (train_g_model : GStepFn GInner Loss)
    (d_loop_num g_loop_num : Nat) (real : Batch)
    (s : TrainState Batch DInner GInner Loss) :
    (processBatch train_d_model train_g_model d_loop_num g_loop_num real s).trace
      = s.trace ++ List.replicate d_loop_num (Event.dStep real)
        ++ List.replicate g_loop_num (Event.gStep : Event Batch) ∧
    (processBatch train_d_model train_g_model d_loop_num g_loop_num real s).d_params
      = (dPhase train_d_model s.g_params real s.d_lr d_loop_num
          ⟨s.d_params, s.d_inner, s.rng, none, []⟩).params ∧
    (processBatch train_d_model train_g_model d_loop_num g_loop_num real s).g_params
      = (@gPhase Batch GInner Loss train_g_model
          (dPhase train_d_model s.g_params real s.d_lr d_loop_num
            ⟨s.d_params, s.d_inner, s.rng, none, []⟩).params
          s.g_lr g_loop_num
          ⟨s.g_params, s.g_inner,
           (dPhase train_d_model s.g_params real s.d_lr d_loop_num
             ⟨s.d_params, s.d_inner, s.rng, none, []⟩).rng, none, []⟩).params :=
  ⟨processBatch_trace train_d_model train_g_model d_loop_num g_loop_num real s, rfl, rfl⟩

/-- C7: the per-epoch trace increment is the epoch's batch events — which
contain no scheduler step — followed by exactly one `dSchedStep` and one
`gSchedStep` (each schedule is stepped exactly once per epoch, after all
batches); a learning rate crossing a decay milestone (listed once) is
multiplied by its decay factor, and is unchanged between milestones. -/
theorem lr_schedule {Batch DInner GInner Loss : Type} (cfg : TrainConfig)
    (f : DStepFn Batch DInner Loss) (g : GStepFn GInner Loss)
    (stream : Nat → Nat → Nat → Scalar) (loader : List Batch)
    (d0 g0 : StateDict) (di0 : DInner) (gi0 : GInner)
    (path : String) (fs0 : FS) (rng0 : RngState) (e : Nat) :
    (Generator.train cfg f g stream loader d0 g0 di0 gi0 path fs0 rng0
        = trainStateAfter cfg f g stream loader d0 g0 di0 gi0 path fs0 rng0 cfg.epochs) ∧
    ((trainStateAfter cfg f g stream loader d0 g0 di0 gi0 path fs0 rng0 (e + 1)).trace
        = (trainStateAfter cfg f g stream loader d0 g0 di0 gi0 path fs0 rng0 e).trace
          ++ batchEvents cfg.d_loop_num cfg.g_loop_num loader ++
          [Event.dSchedStep, Event.gSchedStep, Event.savePlot,
           Event.saveSamples ("E" ++ toString (e + 1) ++ ".jpg")
             (randn stream cfg.sample_num cfg.latent_vector_size rng0).1,
           Event.saveModel path]) ∧
    ((batchEvents cfg.d_loop_num cfg.g_loop_num loader).countP
        (isDSchedStep : Event Batch → Bool) = 0) ∧
    ((batchEvents cfg.d_loop_num cfg.g_loop_num loader).countP
        (isGSchedStep : Event Batch → Bool) = 0) ∧
    (cfg.d_milestones.count (e + 1) = 1 →
      (trainStateAfter cfg f g stream loader d0 g0 di0 gi0 path fs0 rng0 (e + 1)).d_lr
        = (trainStateAfter cfg f g stream loader d0 g0 di0 gi0 path fs0 rng0 e).d_lr
          * cfg.d_lr_gamma) ∧
    ((e + 1) ∉ cfg.d_milestones →
      (trainStateAfter cfg f g stream loader d0 g0 di0 gi0 path fs0 rng0 (e + 1)).d_lr
        = (trainStateAfter cfg f g stream loader d0 g0 di0 gi0 path fs0 rng0 e).d_lr) ∧
    (cfg.g_milestones.count (e + 1) = 1 →
      (trainStateAfter cfg f g stream loader d0 g0 di0 gi0 path fs0 rng0 (e + 1)).g_lr
        = (trainStateAfter cfg f g stream loader d0 g0 di0 gi0 path fs0 rng0 e).g_lr
          * cfg.g_lr_gamma) ∧
    ((e + 1) ∉ cfg.g_milestones →
      (trainStateAfter cfg f g stream loader d0 g0 di0 gi0 path fs0 rng0 (e + 1)).g_lr
        = (trainStateAfter cfg f g stream loader d0 g0 di0 gi0 path fs0 rng0 e).g_lr) := by
  obtain ⟨hdlr, hglr⟩ :=
    trainStateAfter_lr cfg f g stream loader d0 g0 di0 gi0 path fs0 rng0 e
  refine ⟨rfl, ?_,
    (batchEvents_no_sched cfg.d_loop_num cfg.g_loop_num loader).1,
    (batchEvents_no_sched cfg.d_loop_num cfg.g_loop_num loader).2,
    ?_, ?_, ?_, ?_⟩
  · rw [trainStateAfter_succ]
    exact runEpoch_trace f g cfg.d_loop_num cfg.g_loop_num loader
      (randn stream cfg.sample_num cfg.latent_vector_size rng0).1 path e
      (trainStateAfter cfg f g stream loader d0 g0 di0 gi0 path fs0 rng0 e)
  · intro hc
    rw [hdlr, hc, pow_one]
  · intro hn
    rw [hdlr, List.count_eq_zero.mpr hn, pow_zero, mul_one]
  · intro hc
    rw [hglr, hc, pow_one]
  · intro hn
    rw [hglr, List.count_eq_zero.mpr hn, pow_zero, mul_one]

/-- Witness for `lr_schedule` at the small concrete run: epoch 2 is a
milestone (the rate halves), epoch 1 is not (the rate is unchanged). -/
theorem lr_schedule_witness :
    smallCfg.d_milestones.count 2 = 1 ∧ (1 : Nat) ∉ smallCfg.d_milestones ∧
    (trainStateAfter smallCfg smallDStep smallGStep smallStream smallLoader
        [] [] () () smallPath smallFS 0 2).d_lr
      = (trainStateAfter smallCfg smallDStep smallGStep smallStream smallLoader
          [] [] () () smallPath smallFS 0 1).d_lr * smallCfg.d_lr_gamma ∧
    (trainStateAfter smallCfg smallDStep smallGStep smallStream smallLoader
        [] [] () () smallPath smallFS 0 1).d_lr
      = (trainStateAfter smallCfg smallDStep smallGStep smallStream smallLoader
          [] [] () () smallPath smallFS 0 0).d_lr :=
  ⟨by decide, by decide,
   (lr_schedule smallCfg smallDStep smallGStep smallStream smallLoader
     [] [] () () smallPath smallFS 0 1).2.2.2.2.1 (by decide),
   (lr_schedule smallCfg smallDStep smallGStep smallStream smallLoader
     [] [] () () smallPath smallFS 0 0).2.2.2.2.2.1 (by decide)⟩

/-- C8: every epoch of a run checkpoints the generator to the same model
path (the trace holds one `saveModel` event per epoch, all naming `path`);
after a run of at least one epoch, the file at the model path holds
exactly the final generator parameters, and every other path still holds
its initial content — only the latest checkpoint exists. -/
theorem checkpoint_overwrites {Batch DInner GInner Loss : Type} (cfg : TrainConfig)
    (f : DStepFn Batch DInner Loss) (g : GStepFn GInner Loss)
    (stream : Nat → Nat → Nat → Scalar) (loader : List Batch)
    (d0 g0 : StateDict) (di0 : DInner) (gi0 : GInner)
    (path : String) (fs0 : FS) (rng0 : RngState) :
    checkpointPaths
        (Generator.train cfg f g stream loader d0 g0 di0 gi0 path fs0 rng0).trace
      = List.replicate cfg.epochs path ∧
    (0 < cfg.epochs →
      (Generator.train cfg f g stream loader d0 g0 di0 gi0 path fs0 rng0).fs path
        = some ((Generator.train cfg f g stream loader d0 g0 di0 gi0 path fs0 rng0).g_params) ∧
      ∀ p, p ≠ path →
        (Generator.train cfg f g stream loader d0 g0 di0 gi0 path fs0 rng0).fs p = fs0 p) := by
  constructor
  · exact (trainStateAfter_writes cfg f g stream loader d0 g0 di0 gi0 path fs0 rng0
      cfg.epochs).2
  · intro hE
    obtain ⟨k, hk⟩ : ∃ k, cfg.epochs = k + 1 := ⟨cfg.epochs - 1, by omega⟩
    constructor
    · show (trainStateAfter cfg f g stream loader d0 g0 di0 gi0 path fs0 rng0 cfg.epochs).fs path
        = some ((trainStateAfter cfg f g stream loader d0 g0 di0 gi0 path fs0 rng0
            cfg.epochs).g_params)
      rw [hk, trainStateAfter_fs]
      simp
    · intro p hp
      show (trainStateAfter cfg f g stream loader d0 g0 di0 gi0 path fs0 rng0 cfg.epochs).fs p
        = fs0 p
      rw [hk, trainStateAfter_fs]
      simp [hp]

/-- Witness for `checkpoint_overwrites` at the small concrete run. -/
theorem checkpoint_overwrites_witness :
    0 < smallCfg.epochs ∧ ("other" : String) ≠ smallPath ∧
    smallRun.fs smallPath = some smallRun.g_params ∧
    smallRun.fs "other" = smallFS "other" :=
  ⟨by decide, by decide,
   ((checkpoint_overwrites smallCfg smallDStep smallGStep smallStream smallLoader
     [] [] () () smallPath smallFS 0).2 (by decide)).1,
   ((checkpoint_overwrites smallCfg smallDStep smallGStep smallStream smallLoader
     [] [] () () smallPath smallFS 0).2 (by decide)).2 "other" (by decide)⟩

/-! ## Theorems about the dataset transform -/

/-- C9: the dataset built in `train()` applies, to every raw image, resize
then center-crop then tensor conversion then truncation to the first 3
channels then normalization, in that order; truncation keeps `min 3 c`
channel planes; and normalization with mean and std 1/2 maps each pixel
value `x` to `(x − 1/2) / (1/2) = 2x − 1`, carrying `[0, 1]` into
`[−1, 1]`. -/
theorem dataset_transform_pipeline
    (resize centerCrop : Nat → RawImage → RawImage) (toTensor : RawImage → TensorImage)
    (image_size : Nat) (labels : RawImage → Nat) (raws : List RawImage) :
    RealImageDataset raws labels (trainTransform resize centerCrop toTensor image_size)
        = raws.map (fun r =>
            (TItem.ten (Normalize (1 / 2) (1 / 2) (channelTruncate
              (toTensor (centerCrop image_size (resize image_size r))))), labels r)) ∧
    (∀ t : TensorImage, (channelTruncate t).chans.length = min 3 t.chans.length) ∧
    (∀ (p : Nat → Nat → Scalar) (i j : Nat), 0 ≤ p i j → p i j ≤ 1 →
      ∃ q, (Normalize (1 / 2) (1 / 2) ⟨[p]⟩).chans = [q] ∧
        q i j = 2 * p i j - 1 ∧ -1 ≤ q i j ∧ q i j ≤ 1) := by
  refine ⟨rfl, fun t => List.length_take 3 t.chans, ?_⟩
  intro p i j h0 h1
  refine ⟨fun a b => (p a b - 1 / 2) / (1 / 2), rfl, ?_, ?_, ?_⟩
  · show (p i j - 1 / 2) / (1 / 2) = 2 * p i j - 1
    ring
  · show (-1 : Scalar) ≤ (p i j - 1 / 2) / (1 / 2)
    have h : (p i j - 1 / 2) / (1 / 2) = 2 * p i j - 1 := by ring
    rw [h]
    linarith
  · show (p i j - 1 / 2) / (1 / 2) ≤ 1
    have h : (p i j - 1 / 2) / (1 / 2) = 2 * p i j - 1 := by ring
    rw [h]
    linarith

/-- Witness for `dataset_transform_pipeline` at a concrete constant-1
channel plane. -/
theorem dataset_transform_pipeline_witness :
    (0 : Scalar) ≤ 1 ∧ (1 : Scalar) ≤ 1 ∧
    ∃ q, (Normalize (1 / 2) (1 / 2) ⟨[fun _ _ => (1 : Scalar)]⟩).chans = [q] ∧
      q 0 0 = 2 * 1 - 1 ∧ -1 ≤ q 0 0 ∧ q 0 0 ≤ 1 :=
  ⟨by norm_num, by norm_num,
   (dataset_transform_pipeline (fun _ r => r) (fun _ r => r)
     (fun _ => ⟨[fun _ _ => 1]⟩) 64 (fun _ => 0) []).2.2
     (fun _ _ => 1) 0 0 (by norm_num) (by norm_num)⟩

end WGAN
